import Mathlib

/-!
Verification of the Dividend-Data repository's frequency-inference and
yield-valuation logic against its natural-language specification.

Numeric model: Python floats are modelled as `Option ℚ`, with `none` standing
for a missing value (`None`/`NaN`/`NaT`); pandas' `use_inf_as_na` recompute
context additionally maps infinities to `none`, so division by zero also
yields `none` where it matters.  Machine-float rounding is irrelevant to every
claim checked here (all comparisons are decided identically over ℚ at the
inputs involved).
-/

namespace StrOps

/-- Python `str.strip()` on a character list (ASCII whitespace). -/
def trimWs (l : List Char) : List Char :=
  ((l.dropWhile Char.isWhitespace).reverse.dropWhile Char.isWhitespace).reverse

/-- Python `str.lower()` restricted to ASCII letters — sufficient for every
frequency label and numeric string this code base handles. -/
def asciiLower (c : Char) : Char :=
  if c.isUpper then Char.ofNat (c.toNat + 32) else c

/-- Code-point lexicographic `<` on character lists (Python string `<`). -/
def lexLt : List Char → List Char → Bool
  | [], [] => false
  | [], _ :: _ => true
  | _ :: _, [] => false
  | x :: xs, y :: ys =>
    if x < y then true else if y < x then false else lexLt xs ys

/-- Code-point lexicographic `≤` on character lists (Python string `≤`). -/
def lexLe : List Char → List Char → Bool
  | [], _ => true
  | _ :: _, [] => false
  | x :: xs, y :: ys =>
    if x < y then true else if y < x then false else lexLe xs ys

/-- `str.split(sep)` for a one-character separator. -/
def splitOnChar (sep : Char) : List Char → List (List Char)
  | [] => [[]]
  | c :: cs =>
    let r := splitOnChar sep cs
    if c = sep then [] :: r
    else
      match r with
      | [] => [[c]]
      | h :: t => (c :: h) :: t

end StrOps

namespace FrequencyInference

open StrOps

/-- Embeds `FREQ_MULTIPLIER` of `frequency_inference.py` (lines 31-43):
lower-case frequency labels mapped to annualization multipliers. -/
def FREQ_MULTIPLIER : List (String × ℕ) :=
  [("weekly", 52), ("bi-weekly", 26), ("biweekly", 26),
   ("semi-monthly", 24), ("semimonthly", 24),
   ("monthly", 12), ("quarterly", 4),
   ("semi-annual", 2), ("semiannual", 2),
   ("annual", 1), ("annually", 1)]

/-- Embeds `infer_frequency_from_days` (lines 54-70): maps a day gap
(`none` = NaN) to a frequency label.  The source's first guard is
`if pd.isna(days) or days <= 0: return "monthly"`. -/
def infer_frequency_from_days : Option ℚ → String
  | none => "monthly"
  | some days =>
    if days ≤ 0 then "monthly"
    else if days < 10 then "weekly"
    else if days < 20 then "bi-weekly"
    else if days < 25 then "semi-monthly"
    else if days < 60 then "monthly"
    else if days < 130 then "quarterly"
    else if days < 250 then "semi-annual"
    else "annual"

/-- Embeds the scalar `rel_diff` (lines 97-104): relative difference
`|a-b| / max(|a|,|b|)`, `0` when both are zero, NaN when either is NaN. -/
def rel_diff (a b : Option ℚ) : Option ℚ :=
  match a, b with
  | some x, some y =>
    if max |x| |y| = 0 then some 0 else some (|x - y| / max |x| |y|)
  | _, _ => none

/-- The `ValueError` message pandas raises from `NDFrame.__bool__`. -/
def seriesTruthMsg : String :=
  "ValueError: The truth value of a Series is ambiguous"

/-- Models taking the Python truth value (`bool(...)`) of a whole pandas
Series, as `if pd.isna(a) or ...` does when `a` is a Series:
`Series.__bool__` raises `ValueError` unconditionally. -/
def seriesTruth (_s : List Bool) : Except String Bool :=
  .error seriesTruthMsg

/-- Embeds the calls `rel_diff(g["Dividend"], g["next_amt"])` (lines 155-156)
of `update_frequencies_inplace`: the scalar function `rel_diff` is applied to
two whole columns, so its first line `if pd.isna(a) or pd.isna(b)` forces the
truth value of a Series and raises.  (Were the guard passed, the builtin
`max(abs(a), abs(b))` would compare the two Series and raise the same way.) -/
def rel_diff_series (a b : List (Option ℚ)) : Except String (List (Option ℚ)) := do
  let ta ← seriesTruth (a.map Option.isNone)
  let tb ← seriesTruth (b.map Option.isNone)
  if ta || tb then
    pure (List.replicate a.length none)
  else
    throw seriesTruthMsg

/-- One row of the normalized historical table inside
`update_frequencies_inplace` (after `pd.to_datetime(...).dt.normalize()`,
`dropna(subset=["Ex-Div Date"])` and `Dividend.apply(_to_float)`):
`exDate` is the date as a day number, `dividend` the parsed amount. -/
structure Row where
  ticker : String
  exDate : ℤ
  dividend : Option ℚ
deriving DecidableEq

/-- An output row: the input columns plus the rewritten `Frequency`. -/
structure RowOut where
  ticker : String
  exDate : ℤ
  dividend : Option ℚ
  frequency : String
deriving DecidableEq

/-- `Series.shift(-1)` on an amount column: NaN enters at the end. -/
def shift_next_amounts : List (Option ℚ) → List (Option ℚ)
  | [] => []
  | _ :: t => t ++ [none]

/-- `Series.shift(1)` on an amount column: NaN enters at the front. -/
def shift_prev_amounts : List (Option ℚ) → List (Option ℚ)
  | [] => []
  | x :: t => none :: (x :: t).dropLast

/-- `Series.shift(-1)` on the date column: NaT (`none`) enters at the end. -/
def shift_next_dates : List ℤ → List (Option ℤ)
  | [] => []
  | _ :: t => t.map some ++ [none]

/-- `Series.shift(1)` on the date column: NaT (`none`) enters at the front. -/
def shift_prev_dates : List ℤ → List (Option ℤ)
  | [] => []
  | x :: t => none :: ((x :: t).dropLast.map some)

/-- Elementwise semantics of `g["reldiff_prev"] + 0.05` followed by the
Series comparison `< g["reldiff_next"]` (line 160): addition propagates NaN
and a comparison involving NaN is `False`. -/
def prefer_prev (rd_prev rd_next : Option ℚ) : Bool :=
  match rd_prev.map (· + 1/20), rd_next with
  | some x, some y => decide (x < y)
  | _, _ => false

/-- Elementwise semantics of lines 163-164: `freq_days` defaults to
`days_to_next` and is overwritten with `days_to_prev` where `prefer_prev`. -/
def chosen_spacing (days_next days_prev : Option ℤ) (rd_prev rd_next : Option ℚ) :
    Option ℤ :=
  if prefer_prev rd_prev rd_next then days_prev else days_next

/-- Embeds the per-ticker group body of `update_frequencies_inplace`
(lines 144-175): neighbor dates/amounts via `shift`, day gaps, the two
`rel_diff` calls on whole columns (which raise), neighbor preference and the
frequency mapping. -/
def process_group (g : List Row) : Except String (List RowOut) := do
  let amounts := g.map Row.dividend
  let dates := g.map Row.exDate
  let next_amt := shift_next_amounts amounts
  let prev_amt := shift_prev_amounts amounts
  let days_to_next := (dates.zip (shift_next_dates dates)).map
    fun dn => dn.2.map fun v => v - dn.1
  let days_to_prev := (dates.zip (shift_prev_dates dates)).map
    fun dp => dp.2.map fun v => dp.1 - v
  let reldiff_next ← rel_diff_series amounts next_amt
  let reldiff_prev ← rel_diff_series amounts prev_amt
  let freq_days := ((days_to_next.zip days_to_prev).zip
      (reldiff_prev.zip reldiff_next)).map
    fun x => chosen_spacing x.1.1 x.1.2 x.2.1 x.2.2
  let freqs := freq_days.map fun fd => infer_frequency_from_days (fd.map fun z => (z : ℚ))
  pure ((g.zip freqs).map fun rf => ⟨rf.1.ticker, rf.1.exDate, rf.1.dividend, rf.2⟩)

/-- The sort key of `df.sort_values(["Ticker", "Ex-Div Date"])`. -/
def row_le (a b : Row) : Prop :=
  lexLt a.ticker.data b.ticker.data = true ∨
    (a.ticker = b.ticker ∧ a.exDate ≤ b.exDate)

instance : DecidableRel row_le := fun _ _ =>
  inferInstanceAs (Decidable (_ ∨ _))

/-- `groupby("Ticker", sort=False)` on a ticker-sorted list, written with a
fuel argument for structural recursion; each step consumes at least the run
head, so fuel `l.length` always suffices. -/
def group_by_ticker_fuel : ℕ → List Row → List (List Row)
  | 0, _ => []
  | _ + 1, [] => []
  | fuel + 1, r :: rs =>
    (r :: rs.takeWhile (fun x => x.ticker == r.ticker)) ::
      group_by_ticker_fuel fuel (rs.dropWhile (fun x => x.ticker == r.ticker))

/-- `groupby("Ticker", sort=False)` on a ticker-sorted list: splits into
maximal runs of equal ticker. -/
def group_by_ticker (l : List Row) : List (List Row) :=
  group_by_ticker_fuel l.length l

/-- Embeds `update_frequencies_inplace` (lines 109-215) on the normalized
table: empty tables are skipped; otherwise rows are sorted by
(Ticker, Ex-Div Date), grouped by ticker and each group is processed. -/
def update_frequencies (rows : List Row) : Except String (List RowOut) :=
  if rows.isEmpty then throw "skip: empty table" else do
    let groups := group_by_ticker (List.insertionSort row_le rows)
    let outs ← groups.mapM process_group
    pure outs.flatten

/-- Embeds the label normalization of the annualized-yield recompute
(lines 182-190): lower-case, strip, delete underscores and spaces, then map
the three glued aliases to their hyphenated keys. -/
def freq_key (s : String) : String :=
  let t := trimWs (s.data.map asciiLower)
  let t := t.filter fun c => !(c == '_' || c == ' ')
  if t = "biweekly".data then "bi-weekly"
  else if t = "semimonthly".data then "semi-monthly"
  else if t = "semiannual".data then "semi-annual"
  else String.mk t

/-- Embeds the annualized-yield recompute of `update_frequencies_inplace`
(lines 180-199) for one row: `mult = freq_key.map(FREQ_MULTIPLIER).fillna(12)`
silently defaults a label with no multiplier to the monthly multiplier 12;
`(div * mult / price) * 100` is evaluated under `mode.use_inf_as_na`, so a
missing dividend or price propagates NaN and a zero price gives NA. -/
def annualized_yield_recompute (freq : String) (div price : Option ℚ) : Option ℚ :=
  let mult : ℚ := ((FREQ_MULTIPLIER.lookup (freq_key freq)).getD 12 : ℕ)
  match div, price with
  | some d, some p => if p = 0 then none else some (d * mult / p * 100)
  | _, _ => none

end FrequencyInference

namespace PyFloat

/-- The result of a successful Python `float(...)` call. -/
inductive Val where
  | num (q : ℚ)
  | nan
  | inf (neg : Bool)
deriving DecidableEq

/-- Value of a digit string. -/
def digitsVal (l : List Char) : ℕ :=
  l.foldl (fun a c => a * 10 + (c.toNat - 48)) 0

/-- Parse a decimal mantissa `digits[.digits]` with at least one digit. -/
def parseMantissa (m : List Char) : Option (ℚ) :=
  match StrOps.splitOnChar '.' m with
  | [i] =>
    if i ≠ [] ∧ i.all Char.isDigit then some (digitsVal i) else none
  | [i, f] =>
    if (i ++ f) ≠ [] ∧ (i ++ f).all Char.isDigit then
      some (digitsVal (i ++ f) / 10 ^ f.length)
    else none
  | _ => none

/-- Split an optional leading `+`/`-` sign. -/
def splitSign : List Char → Bool × List Char
  | '+' :: cs => (false, cs)
  | '-' :: cs => (true, cs)
  | cs => (false, cs)

/-- Models Python's `float(str)` applied to a string: `none` is a raised
`ValueError`.  Accepts surrounding whitespace, an optional sign, then
`inf`/`infinity`/`nan` (case-insensitively) or a decimal
`digits[.digits][e[sign]digits]` with at least one mantissa digit.
(CPython additionally permits underscores between digits; on every input
`_to_float` below can feed it the underscore-free reading produces the same
final outcome, because the retry on the filtered string removes the
underscores anyway.) -/
def parseFloat (s : List Char) : Option Val :=
  let t := (StrOps.trimWs s).map StrOps.asciiLower
  let (neg, rest) := splitSign t
  if rest = "inf".data ∨ rest = "infinity".data then some (.inf neg)
  else if rest = "nan".data then some .nan
  else
    let signQ : ℚ := if neg then -1 else 1
    match StrOps.splitOnChar 'e' rest with
    | [m] => (parseMantissa m).map fun q => .num (signQ * q)
    | [m, ex] =>
      let (eneg, ed) := splitSign ex
      if ed = [] ∨ ¬ ed.all Char.isDigit then none
      else
        let e : ℤ := if eneg then -(digitsVal ed : ℤ) else (digitsVal ed : ℤ)
        (parseMantissa m).map fun q => .num (signQ * q * (10 : ℚ) ^ e)
    | _ => none

end PyFloat

namespace Sanitize

open PyFloat

/-- Embeds `_to_float` (`frequency_inference.py` lines 75-83, and the
character-identical copy at `historical_yield_tracker.py` lines 240-248):
strip, delete commas and dollar signs, map the placeholder sentinels to NaN,
try `float(s)`, and on failure retry on the string filtered to digits, dots
and minus signs.  `.error ()` models an exception escaping `_to_float`: the
retry `float(s)` sits outside any `try`, so when the filtered string is
non-empty yet still unparseable the `ValueError` propagates to the caller. -/
def _to_float (x : String) : Except Unit Val :=
  let s := (StrOps.trimWs x.data).filter fun c => !(c == ',' || c == '$')
  if s = [] ∨ s = "-".data ∨ s = "—".data ∨ s = "None".data ∨
      s = "nan".data ∨ s = "NaN".data then
    .ok .nan
  else
    match parseFloat s with
    | some v => .ok v
    | none =>
      let s2 := s.filter fun c => c.isDigit || c == '.' || c == '-'
      if s2 = [] then .ok .nan
      else
        match parseFloat s2 with
        | some v => .ok v
        | none => .error ()

end Sanitize

namespace Patch

/-- Embeds `infer_frequency` of `patch_frequency_from_intervals.py`
(lines 4-18): same thresholds as the main mapping but with no guard for
non-positive or undefined gaps. -/
def infer_frequency (days : ℚ) : String :=
  if days < 10 then "weekly"
  else if days < 20 then "bi-weekly"
  else if days < 25 then "semi-monthly"
  else if days < 60 then "monthly"
  else if days < 130 then "quarterly"
  else if days < 250 then "semi-annual"
  else "annual"

end Patch

namespace Daily

/-- Embeds `FREQ_MULTIPLIER` of `daily_etf_yield_tracker.py` (lines 40-49):
canonical capitalized labels only; `Unknown` deliberately has no entry. -/
def FREQ_MULTIPLIER : List (String × ℕ) :=
  [("Weekly", 52), ("Bi-Weekly", 26), ("Semi-Monthly", 24), ("Monthly", 12),
   ("Quarterly", 4), ("Semi-Annual", 2), ("Annual", 1)]

/-- Embeds the yield computation of `process_ticker` (lines 270-271):
`multiplier = FREQ_MULTIPLIER.get(freq_text, None)` and
`current_yield = ((last_div * multiplier) / price * 100) if (last_div and multiplier and price) else None`.
Python truthiness makes `None` and `0` falsy, so a missing multiplier or a
missing or zero dividend or price yields `None`. (The later `round(..., 3)`
only formats an already-defined value and does not affect definedness.) -/
def current_yield (freq_text : String) (last_div price : Option ℚ) : Option ℚ :=
  match last_div, FREQ_MULTIPLIER.lookup freq_text, price with
  | some d, some m, some p =>
    if d = 0 ∨ p = 0 then none else some (d * (m : ℚ) / p * 100)
  | _, _, _ => none

/-- Embeds `_label` inside `_merge_stats_and_valuation` (lines 211-226): a
pure function of the row's current yield, median and std-dev; any missing
input gives "Unknown"; otherwise the yield is compared against the
median ± std-dev band.  The mean column is never read. -/
def _label (cur med sd : Option ℚ) : String :=
  match cur, med, sd with
  | some c, some m, some s =>
    if c > m + s then "Underpriced"
    else if c < m - s then "Overpriced"
    else "Fair Price"
  | _, _, _ => "Unknown"

/-- One row of a parsed statistics CSV after header normalization. -/
structure StatsRow where
  ticker : String
  median : Option ℚ
  mean : Option ℚ
  sd : Option ℚ
deriving DecidableEq

/-- The statistics store as `_merge_stats_and_valuation` sees it: the file
may be absent, present with an unusable schema (the needed columns missing
even after the legacy renames of lines 186-194), or well-formed. -/
inductive StatsSource where
  | absent
  | badSchema
  | good (rows : List StatsRow)
deriving DecidableEq

/-- One row of the daily table (the fields `_merge_stats_and_valuation` reads). -/
structure DailyRow where
  ticker : String
  currentYield : Option ℚ
deriving DecidableEq

/-- A merged output row. -/
structure MergedRow where
  ticker : String
  currentYield : Option ℚ
  median : Option ℚ
  mean : Option ℚ
  sd : Option ℚ
  valuation : String
deriving DecidableEq

/-- Embeds `_merge_stats_and_valuation` (lines 162-229): an absent or
wrong-schema statistics file sets the three stat columns to NA and every
row's Valuation directly to "Unknown"; otherwise a left merge on Ticker
brings in the stats (one output row per matching stats row, NA columns when
the ticker is absent) and `_label` computes each row's valuation. -/
def merge_stats_and_valuation (daily : List DailyRow) (src : StatsSource) :
    List MergedRow :=
  match src with
  | .absent | .badSchema =>
    daily.map fun r => ⟨r.ticker, r.currentYield, none, none, none, "Unknown"⟩
  | .good stats =>
    daily.flatMap fun r =>
      let ms := stats.filter fun s => s.ticker == r.ticker
      if ms.isEmpty then
        [⟨r.ticker, r.currentYield, none, none, none,
          _label r.currentYield none none⟩]
      else
        ms.map fun s =>
          ⟨r.ticker, r.currentYield, s.median, s.mean, s.sd,
            _label r.currentYield s.median s.sd⟩

end Daily

namespace Historical

/-- One persisted row of `historical_yield_*.csv`, restricted to the key
columns `append_rows` dedupes on plus a value column that distinguishes the
old and new row on a key collision (the remaining columns ride along
unchanged). -/
structure HRow where
  ticker : String
  exDate : String
  dividend : Option ℚ
deriving DecidableEq

/-- The (Ticker, Ex-Div Date) key of line 170. -/
def rowKey (r : HRow) : String × String := (r.ticker, r.exDate)

/-- Embeds `combined.drop_duplicates(subset=["Ticker", "Ex-Div Date"])`
(line 170): pandas' default `keep="first"` keeps, for each key, the first
row bearing it; `seen` carries the keys already kept. -/
def drop_duplicates : List HRow → List (String × String) → List HRow
  | [], _ => []
  | r :: rs, seen =>
    if rowKey r ∈ seen then drop_duplicates rs seen
    else r :: drop_duplicates rs (rowKey r :: seen)

/-- The `sort_values(["Ticker", "Ex-Div Date"])` key order of line 171. -/
def hrow_le (a b : HRow) : Prop :=
  StrOps.lexLt a.ticker.data b.ticker.data = true ∨
    (a.ticker = b.ticker ∧ StrOps.lexLe a.exDate.data b.exDate.data = true)

instance : DecidableRel hrow_le := fun _ _ =>
  inferInstanceAs (Decidable (_ ∨ _))

/-- Embeds the merge path of `append_rows` (`historical_yield_tracker.py`
lines 162-177): the existing CSV rows are concatenated with the newly
scraped rows (old rows first), deduplicated on (Ticker, Ex-Div Date) and
sorted before being written back. -/
def append_rows (old new : List HRow) : List HRow :=
  List.insertionSort hrow_le (drop_duplicates (old ++ new) [])

end Historical

/-! ## Claim theorems -/

/-- Claim C1: the day-gap-to-frequency mapping returns Monthly when the gap
is undefined or non-positive, Weekly on (0,10), Bi-Weekly on [10,20),
Semi-Monthly on [20,25), Monthly on [25,60), Quarterly on [60,130),
Semi-Annual on [130,250) and Annual on [250,∞), with inclusive lower
boundaries as witnessed at 10, 20, 60, 130 and 250; the interval-patch
script's copy of the mapping agrees with it on every positive gap. -/
theorem c1_day_gap_mapping (d : ℚ) :
    FrequencyInference.infer_frequency_from_days none = "monthly"
    ∧ (d ≤ 0 → FrequencyInference.infer_frequency_from_days (some d) = "monthly")
    ∧ (0 < d → d < 10 → FrequencyInference.infer_frequency_from_days (some d) = "weekly")
    ∧ (10 ≤ d → d < 20 → FrequencyInference.infer_frequency_from_days (some d) = "bi-weekly")
    ∧ (20 ≤ d → d < 25 → FrequencyInference.infer_frequency_from_days (some d) = "semi-monthly")
    ∧ (25 ≤ d → d < 60 → FrequencyInference.infer_frequency_from_days (some d) = "monthly")
    ∧ (60 ≤ d → d < 130 → FrequencyInference.infer_frequency_from_days (some d) = "quarterly")
    ∧ (130 ≤ d → d < 250 → FrequencyInference.infer_frequency_from_days (some d) = "semi-annual")
    ∧ (250 ≤ d → FrequencyInference.infer_frequency_from_days (some d) = "annual")
    ∧ FrequencyInference.infer_frequency_from_days (some 10) = "bi-weekly"
    ∧ FrequencyInference.infer_frequency_from_days (some 20) = "semi-monthly"
    ∧ FrequencyInference.infer_frequency_from_days (some 60) = "quarterly"
    ∧ FrequencyInference.infer_frequency_from_days (some 130) = "semi-annual"
    ∧ FrequencyInference.infer_frequency_from_days (some 250) = "annual"
    ∧ (0 < d → Patch.infer_frequency d = FrequencyInference.infer_frequency_from_days (some d)) := by
  refine ⟨rfl, ?_, ?_, ?_, ?_, ?_, ?_, ?_, ?_, by decide, by decide, by decide,
    by decide, by decide, ?_⟩
  all_goals
    (intros
     simp only [FrequencyInference.infer_frequency_from_days]
     repeat first
      | rfl
      | rw [if_pos (by linarith)]
      | rw [if_neg (by linarith)])

/-- Witness for C1: each guarded branch of `c1_day_gap_mapping` applied at a
concrete gap inside its interval. -/
theorem c1_day_gap_mapping_witness :
    FrequencyInference.infer_frequency_from_days (some (-3)) = "monthly"
    ∧ FrequencyInference.infer_frequency_from_days (some 5) = "weekly"
    ∧ FrequencyInference.infer_frequency_from_days (some 15) = "bi-weekly"
    ∧ FrequencyInference.infer_frequency_from_days (some 22) = "semi-monthly"
    ∧ FrequencyInference.infer_frequency_from_days (some 30) = "monthly"
    ∧ FrequencyInference.infer_frequency_from_days (some 90) = "quarterly"
    ∧ FrequencyInference.infer_frequency_from_days (some 200) = "semi-annual"
    ∧ FrequencyInference.infer_frequency_from_days (some 400) = "annual"
    ∧ Patch.infer_frequency 90 = FrequencyInference.infer_frequency_from_days (some 90) :=
  ⟨(c1_day_gap_mapping (-3)).2.1 (by norm_num),
   (c1_day_gap_mapping 5).2.2.1 (by norm_num) (by norm_num),
   (c1_day_gap_mapping 15).2.2.2.1 (by norm_num) (by norm_num),
   (c1_day_gap_mapping 22).2.2.2.2.1 (by norm_num) (by norm_num),
   (c1_day_gap_mapping 30).2.2.2.2.2.1 (by norm_num) (by norm_num),
   (c1_day_gap_mapping 90).2.2.2.2.2.2.1 (by norm_num) (by norm_num),
   (c1_day_gap_mapping 200).2.2.2.2.2.2.2.1 (by norm_num) (by norm_num),
   (c1_day_gap_mapping 400).2.2.2.2.2.2.2.2.1 (by norm_num),
   (c1_day_gap_mapping 90).2.2.2.2.2.2.2.2.2.2.2.2.2.2 (by norm_num)⟩

/-- Claim C10: the day-gap mapping is total — for every input, defined or
not, it returns one of the seven concrete labels, never "Unknown", and the
returned label always has an annualization multiplier in `FREQ_MULTIPLIER`. -/
theorem c10_mapping_total (d : Option ℚ) :
    (FrequencyInference.infer_frequency_from_days d = "weekly"
      ∨ FrequencyInference.infer_frequency_from_days d = "bi-weekly"
      ∨ FrequencyInference.infer_frequency_from_days d = "semi-monthly"
      ∨ FrequencyInference.infer_frequency_from_days d = "monthly"
      ∨ FrequencyInference.infer_frequency_from_days d = "quarterly"
      ∨ FrequencyInference.infer_frequency_from_days d = "semi-annual"
      ∨ FrequencyInference.infer_frequency_from_days d = "annual")
    ∧ FrequencyInference.infer_frequency_from_days d ≠ "Unknown"
    ∧ (FrequencyInference.FREQ_MULTIPLIER.lookup
        (FrequencyInference.infer_frequency_from_days d)).isSome = true := by
  rcases d with _ | q
  · exact ⟨by decide, by decide, by decide⟩
  · simp only [FrequencyInference.infer_frequency_from_days]
    split_ifs <;> exact ⟨by decide, by decide, by decide⟩

/-- Claim C2: the engine's neighbor-selection rule (the elementwise meaning
of lines 158-164 of `frequency_inference.py`) keeps the NEXT neighbor's
spacing by default and switches to the PREV spacing exactly when
`rel_diff_prev + 0.05 < rel_diff_next` holds strictly; in particular
rel_diff_prev = 0.10 against rel_diff_next = 0.12 keeps NEXT, and
rel_diff_prev = 0.01 against rel_diff_next = 0.50 selects PREV. -/
theorem c2_neighbor_selection (dn dp : Option ℤ) (p n : ℚ) :
    FrequencyInference.chosen_spacing dn dp (some p) (some n) =
      (if p + 5/100 < n then dp else dn)
    ∧ FrequencyInference.prefer_prev (some (10/100)) (some (12/100)) = false
    ∧ FrequencyInference.chosen_spacing dn dp (some (10/100)) (some (12/100)) = dn
    ∧ FrequencyInference.prefer_prev (some (1/100)) (some (50/100)) = true
    ∧ FrequencyInference.chosen_spacing dn dp (some (1/100)) (some (50/100)) = dp := by
  have hred : ∀ (x y : ℚ),
      FrequencyInference.prefer_prev (some x) (some y) = decide (x + 1/20 < y) :=
    fun _ _ => rfl
  have h1 : FrequencyInference.prefer_prev (some (10/100)) (some (12/100)) = false := by
    rw [hred]
    norm_num
  have h2 : FrequencyInference.prefer_prev (some (1/100)) (some (50/100)) = true := by
    rw [hred]
    norm_num
  refine ⟨?_, h1, ?_, h2, ?_⟩
  · simp only [FrequencyInference.chosen_spacing, hred, decide_eq_true_eq,
      show (1 : ℚ)/20 = 5/100 from by norm_num]
  · simp only [FrequencyInference.chosen_spacing, h1]
    rfl
  · simp only [FrequencyInference.chosen_spacing, h2]
    rfl

/-- Claim C3 (code bug): the engine does not label anything — on every
non-empty normalized table, including a single-event ticker,
`update_frequencies_inplace` raises pandas' ambiguous-Series-truth
`ValueError` from the whole-column `rel_diff` calls of lines 155-156, so no
frequency label is ever emitted. -/
theorem c3_engine_crashes :
    FrequencyInference.update_frequencies [⟨"AAA", 19723, some (1/10)⟩] =
      .error FrequencyInference.seriesTruthMsg := by
  rfl

/-- Claim C9 (code bug): the engine cannot be run even once on a two-event
ticker — it raises the same ambiguous-Series-truth `ValueError` before
assigning any frequency, so there is no produced table whose re-run could be
compared for idempotence. -/
theorem c9_engine_crashes_two_rows :
    FrequencyInference.update_frequencies
      [⟨"AAA", 19723, some (1/10)⟩, ⟨"AAA", 19753, some (1/10)⟩] =
      .error FrequencyInference.seriesTruthMsg := by
  rfl

/-- Claim C4: the valuation labeler is a pure function of the current yield,
median and std-dev; a missing input yields "Unknown", and for present inputs
(with a nonnegative std-dev, so the band is well-formed) it returns
"Underpriced" exactly when the yield strictly exceeds median + std,
"Overpriced" exactly when it is strictly below median − std, and
"Fair Price" exactly on the closed band — as checked at the spec's boundary
quadruple (median 5, std 1, yields 6, 6.01, 3.99, 4). -/
theorem c4_valuation_label (c m s : ℚ) (hs : 0 ≤ s) :
    Daily._label none (some m) (some s) = "Unknown"
    ∧ Daily._label (some c) none (some s) = "Unknown"
    ∧ Daily._label (some c) (some m) none = "Unknown"
    ∧ (Daily._label (some c) (some m) (some s) = "Underpriced" ↔ c > m + s)
    ∧ (Daily._label (some c) (some m) (some s) = "Overpriced" ↔ c < m - s)
    ∧ (Daily._label (some c) (some m) (some s) = "Fair Price" ↔
        (m - s ≤ c ∧ c ≤ m + s))
    ∧ Daily._label (some 6) (some 5) (some 1) = "Fair Price"
    ∧ Daily._label (some (601/100)) (some 5) (some 1) = "Underpriced"
    ∧ Daily._label (some (399/100)) (some 5) (some 1) = "Overpriced"
    ∧ Daily._label (some 4) (some 5) (some 1) = "Fair Price" := by
  refine ⟨rfl, rfl, rfl, ?_, ?_, ?_, ?_, ?_, ?_, ?_⟩
  · simp only [Daily._label]
    split_ifs with h1 h2
    · simpa using h1
    · simp only [String.reduceEq, false_iff]
      linarith
    · simp only [String.reduceEq, false_iff]
      push_neg at h1
      linarith
  · simp only [Daily._label]
    split_ifs with h1 h2
    · simp only [String.reduceEq, false_iff]
      linarith
    · simpa using h2
    · simp only [String.reduceEq, false_iff]
      push_neg at h2
      linarith
  · simp only [Daily._label]
    split_ifs with h1 h2
    · simp only [String.reduceEq, false_iff]
      push_neg
      intro _
      linarith
    · simp only [String.reduceEq, false_iff]
      push_neg
      intro h
      linarith
    · push_neg at h1 h2
      simp only [String.reduceEq, true_iff]
      exact ⟨h2, h1⟩
  all_goals
    (simp only [Daily._label]
     norm_num)

/-- Witness for C4: `c4_valuation_label` applied at the spec's boundary
input (median 5, std 1, current 6). -/
theorem c4_valuation_label_witness :
    Daily._label (some 6) (some 5) (some 1) = "Fair Price" :=
  (c4_valuation_label 6 5 1 (by norm_num)).2.2.2.2.2.2.1

/-- Claim C7 (code bug): `_to_float` can raise.  On "1.2.3" the first
`float(s)` fails and the filtered retry string is again "1.2.3", whose
`float` call sits outside any `try` and raises `ValueError`; by contrast the
sanitizer does strip currency symbols and thousands separators
("$1,234" parses to 1234), maps placeholder dashes and unparseable junk to
NaN — and never to zero. -/
theorem c7_to_float_raises :
    Sanitize._to_float "1.2.3" = .error ()
    ∧ Sanitize._to_float "$1,234" = .ok (.num 1234)
    ∧ Sanitize._to_float "—" = .ok .nan
    ∧ Sanitize._to_float "-" = .ok .nan
    ∧ Sanitize._to_float "abc" = .ok .nan := by
  refine ⟨rfl, ?_, rfl, rfl, rfl⟩
  have h : Sanitize._to_float "$1,234" =
      .ok (.num (1 * ((PyFloat.digitsVal "1234".data : ℕ) : ℚ))) := rfl
  have hd : PyFloat.digitsVal "1234".data = 1234 := by decide
  rw [h, hd]
  norm_num

/-- Counterexample to claim C6: in the annualized-yield recompute of
`frequency_inference.py`, a frequency label carrying no multiplier does NOT
give an undefined yield — `.fillna(12)` substitutes the Monthly multiplier,
so a row labelled "unknown" with dividend 1 and price 100 gets the defined
yield 12. -/
theorem c6_counterexample :
    FrequencyInference.annualized_yield_recompute "unknown" (some 1) (some 100) = some 12
    ∧ FrequencyInference.annualized_yield_recompute "unknown" (some 1) (some 100) ≠ none := by
  have hk : FrequencyInference.FREQ_MULTIPLIER.lookup
      (FrequencyInference.freq_key "unknown") = none := by decide
  have h : FrequencyInference.annualized_yield_recompute "unknown" (some 1) (some 100) =
      some 12 := by
    simp [FrequencyInference.annualized_yield_recompute, hk]
  exact ⟨h, by rw [h]; simp⟩

/-- Claim C6 as amended: in `process_ticker` of the daily tracker an Unknown
label, any label without a multiplier, a missing price or a missing dividend
gives no yield (`None`), and in the engine's recompute a missing price gives
NaN — but there a label without a multiplier is silently given the Monthly
multiplier 12 instead of an undefined result. -/
theorem c6_amended_yield_undefined :
    (∀ dv p : Option ℚ, Daily.current_yield "Unknown" dv p = none)
    ∧ (∀ (f : String) (dv : Option ℚ), Daily.current_yield f dv none = none)
    ∧ (∀ (f : String) (dv p : Option ℚ), Daily.FREQ_MULTIPLIER.lookup f = none →
        Daily.current_yield f dv p = none)
    ∧ (∀ (f : String) (dv : Option ℚ),
        FrequencyInference.annualized_yield_recompute f dv none = none)
    ∧ (∀ (f : String) (d p : ℚ),
        FrequencyInference.FREQ_MULTIPLIER.lookup (FrequencyInference.freq_key f) = none →
        p ≠ 0 →
        FrequencyInference.annualized_yield_recompute f (some d) (some p) =
          some (d * 12 / p * 100)) := by
  refine ⟨?_, ?_, ?_, ?_, ?_⟩
  · intro dv p
    have hu : Daily.FREQ_MULTIPLIER.lookup "Unknown" = none := by decide
    simp only [Daily.current_yield, hu]
  · intro f dv
    simp only [Daily.current_yield]
    cases dv <;> cases Daily.FREQ_MULTIPLIER.lookup f <;> rfl
  · intro f dv p hf
    simp only [Daily.current_yield, hf]
  · intro f dv
    simp only [FrequencyInference.annualized_yield_recompute]
  · intro f d p hf hp
    simp only [FrequencyInference.annualized_yield_recompute, hf, Option.getD]
    rw [if_neg hp]
    norm_num

/-- Witness for C6: the amended statement applied at concrete inputs — an
Unknown label in the daily tracker, a label absent from the daily multiplier
map, a missing price in the recompute, and an unmapped label in the
recompute receiving multiplier 12. -/
theorem c6_amended_yield_undefined_witness :
    Daily.current_yield "Unknown" (some 5) (some 10) = none
    ∧ Daily.current_yield "Monthly" (some 5) none = none
    ∧ Daily.current_yield "Qtr" (some 5) (some 10) = none
    ∧ FrequencyInference.annualized_yield_recompute "monthly" (some 5) none = none
    ∧ FrequencyInference.annualized_yield_recompute "unknown" (some 3) (some 50) =
        some (3 * 12 / 50 * 100) :=
  ⟨c6_amended_yield_undefined.1 (some 5) (some 10),
   c6_amended_yield_undefined.2.1 "Monthly" (some 5),
   c6_amended_yield_undefined.2.2.1 "Qtr" (some 5) (some 10) (by decide),
   c6_amended_yield_undefined.2.2.2.1 "monthly" (some 5),
   c6_amended_yield_undefined.2.2.2.2 "unknown" 3 50 (by decide) (by norm_num)⟩

/-- A valuation computed against entirely missing statistics is "Unknown". -/
theorem label_missing_stats_unknown (x : Option ℚ) :
    Daily._label x none none = "Unknown" := by
  cases x <;> rfl

/-- Claim C8: every merged row's valuation is "Unknown" whenever the
statistics store is absent or has an unusable schema, and, for a well-formed
store, whenever no stats row carries the merged row's ticker — regardless of
the row's current yield. -/
theorem c8_missing_stats_unknown (daily : List Daily.DailyRow) (src : Daily.StatsSource)
    (o : Daily.MergedRow) (ho : o ∈ Daily.merge_stats_and_valuation daily src) :
    ((src = .absent ∨ src = .badSchema) → o.valuation = "Unknown")
    ∧ (∀ stats, src = .good stats → (∀ s ∈ stats, s.ticker ≠ o.ticker) →
        o.valuation = "Unknown") := by
  constructor
  · rintro (rfl | rfl) <;>
    · simp only [Daily.merge_stats_and_valuation, List.mem_map] at ho
      obtain ⟨r, _, rfl⟩ := ho
      rfl
  · rintro stats rfl hne
    simp only [Daily.merge_stats_and_valuation, List.mem_flatMap] at ho
    obtain ⟨r, hr, ho⟩ := ho
    by_cases hem : (stats.filter fun s => s.ticker == r.ticker).isEmpty
    · rw [if_pos hem] at ho
      rcases List.mem_singleton.mp ho with rfl
      exact label_missing_stats_unknown _
    · rw [if_neg hem] at ho
      rw [List.mem_map] at ho
      obtain ⟨s, hs, rfl⟩ := ho
      have hmem := List.mem_filter.mp hs
      have hticker : s.ticker = r.ticker := by
        simpa using hmem.2
      exact absurd hticker (hne s hmem.1)

/-- Witness for C8: `c8_missing_stats_unknown` applied to a one-row daily
table against an absent store, and against a well-formed store that lacks
the row's ticker. -/
theorem c8_missing_stats_unknown_witness :
    Daily.MergedRow.valuation ⟨"A", some 5, none, none, none, "Unknown"⟩ = "Unknown"
    ∧ Daily.MergedRow.valuation ⟨"B", some 7, none, none, none, "Unknown"⟩ = "Unknown" :=
  ⟨(c8_missing_stats_unknown [⟨"A", some 5⟩] .absent
      ⟨"A", some 5, none, none, none, "Unknown"⟩ (by decide)).1 (Or.inl rfl),
   (c8_missing_stats_unknown [⟨"B", some 7⟩] (.good [⟨"A", some 1, some 1, some 1⟩])
      ⟨"B", some 7, none, none, none, "Unknown"⟩ (by decide)).2
      [⟨"A", some 1, some 1, some 1⟩] rfl (by decide)⟩

/-- Deduplication only keeps rows of its input. -/
theorem mem_of_mem_drop_duplicates {s : Historical.HRow} :
    ∀ (l : List Historical.HRow) (seen : List (String × String)),
      s ∈ Historical.drop_duplicates l seen → s ∈ l := by
  intro l
  induction l with
  | nil =>
    intro seen h
    simp [Historical.drop_duplicates] at h
  | cons a t ih =>
    intro seen h
    simp only [Historical.drop_duplicates] at h
    by_cases hk : Historical.rowKey a ∈ seen
    · rw [if_pos hk] at h
      exact List.mem_cons_of_mem _ (ih _ h)
    · rw [if_neg hk] at h
      rcases List.mem_cons.mp h with rfl | h'
      · exact List.mem_cons_self _ _
      · exact List.mem_cons_of_mem _ (ih _ h')

/-- A kept row's key was not among the keys already seen. -/
theorem key_not_seen_of_mem_drop_duplicates {s : Historical.HRow} :
    ∀ (l : List Historical.HRow) (seen : List (String × String)),
      s ∈ Historical.drop_duplicates l seen → Historical.rowKey s ∉ seen := by
  intro l
  induction l with
  | nil =>
    intro seen h
    simp [Historical.drop_duplicates] at h
  | cons a t ih =>
    intro seen h
    simp only [Historical.drop_duplicates] at h
    by_cases hk : Historical.rowKey a ∈ seen
    · rw [if_pos hk] at h
      exact ih _ h
    · rw [if_neg hk] at h
      rcases List.mem_cons.mp h with rfl | h'
      · exact hk
      · intro hc
        exact ih _ h' (List.mem_cons_of_mem _ hc)

/-- Deduplicated rows have pairwise distinct keys. -/
theorem pairwise_keys_drop_duplicates :
    ∀ (l : List Historical.HRow) (seen : List (String × String)),
      (Historical.drop_duplicates l seen).Pairwise
        (fun a b => Historical.rowKey a ≠ Historical.rowKey b) := by
  intro l
  induction l with
  | nil =>
    intro seen
    simp [Historical.drop_duplicates]
  | cons a t ih =>
    intro seen
    simp only [Historical.drop_duplicates]
    by_cases hk : Historical.rowKey a ∈ seen
    · rw [if_pos hk]
      exact ih _
    · rw [if_neg hk]
      refine List.Pairwise.cons ?_ (ih _)
      intro b hb hc
      exact key_not_seen_of_mem_drop_duplicates t _ hb
        (by rw [← hc]; exact List.mem_cons_self _ _)

/-- When a key occurs in the left part of the input, the row kept for that
key comes from the left part (keep-first). -/
theorem drop_duplicates_first_occurrence {s : Historical.HRow} :
    ∀ (l₁ l₂ : List Historical.HRow) (seen : List (String × String)),
      s ∈ Historical.drop_duplicates (l₁ ++ l₂) seen →
      (∃ r ∈ l₁, Historical.rowKey r = Historical.rowKey s) → s ∈ l₁ := by
  intro l₁
  induction l₁ with
  | nil =>
    intro l₂ seen _ hex
    obtain ⟨r, hr, _⟩ := hex
    exact absurd hr (List.not_mem_nil r)
  | cons a t ih =>
    intro l₂ seen h hex
    simp only [List.cons_append, Historical.drop_duplicates] at h
    by_cases hk : Historical.rowKey a ∈ seen
    · rw [if_pos hk] at h
      obtain ⟨r, hr, hkey⟩ := hex
      rcases List.mem_cons.mp hr with rfl | hrt
      · exact absurd (hkey ▸ hk) (key_not_seen_of_mem_drop_duplicates _ _ h)
      · exact List.mem_cons_of_mem _ (ih l₂ seen h ⟨r, hrt, hkey⟩)
    · rw [if_neg hk] at h
      rcases List.mem_cons.mp h with rfl | h'
      · exact List.mem_cons_self _ _
      · obtain ⟨r, hr, hkey⟩ := hex
        rcases List.mem_cons.mp hr with rfl | hrt
        · exact absurd
            (by rw [← hkey]; exact List.mem_cons_self _ _)
            (key_not_seen_of_mem_drop_duplicates _ _ h')
        · exact List.mem_cons_of_mem _ (ih l₂ _ h' ⟨r, hrt, hkey⟩)

/-- Counterexample to claim C5: merging a new row whose (Ticker, Ex-Div Date)
key duplicates a persisted row keeps the OLD row's values, not the new ones —
`drop_duplicates` defaults to `keep="first"` and the old rows come first. -/
theorem c5_counterexample :
    Historical.append_rows
        [⟨"AAA", "2024-01-01", some 1⟩] [⟨"AAA", "2024-01-01", some 2⟩] =
      [⟨"AAA", "2024-01-01", some 1⟩]
    ∧ Historical.append_rows
        [⟨"AAA", "2024-01-01", some 1⟩] [⟨"AAA", "2024-01-01", some 2⟩] ≠
      [⟨"AAA", "2024-01-01", some 2⟩] := by
  exact ⟨by decide, by decide⟩

/-- Claim C5 as amended: after the merge each (Ticker, Ex-Div Date) key
appears at most once, and when an incoming row duplicates an existing key
the previously persisted row's values win (keep-first), so the output row
for any key present in the old table is an old row. -/
theorem c5_dedupe_first_wins (old new : List Historical.HRow) :
    (Historical.append_rows old new).Pairwise
      (fun a b => Historical.rowKey a ≠ Historical.rowKey b)
    ∧ (∀ s ∈ Historical.append_rows old new,
        (∃ r ∈ old, Historical.rowKey r = Historical.rowKey s) → s ∈ old) := by
  have hperm := List.perm_insertionSort Historical.hrow_le
    (Historical.drop_duplicates (old ++ new) [])
  constructor
  · have hsym : ∀ {a b : Historical.HRow},
        Historical.rowKey a ≠ Historical.rowKey b →
        Historical.rowKey b ≠ Historical.rowKey a :=
      fun h hc => h hc.symm
    exact (List.Perm.pairwise_iff hsym hperm).mpr (pairwise_keys_drop_duplicates _ _)
  · intro s hs hex
    have hmem : s ∈ Historical.drop_duplicates (old ++ new) [] :=
      hperm.mem_iff.mp hs
    exact drop_duplicates_first_occurrence old new [] hmem hex

/-- Witness for C5: `c5_dedupe_first_wins` applied to one old and one
colliding new row — the merged output's sole row is the old row. -/
theorem c5_dedupe_first_wins_witness :
    (Historical.append_rows
        [⟨"AAA", "2024-01-01", some 1⟩] [⟨"AAA", "2024-01-01", some 2⟩]).Pairwise
      (fun a b => Historical.rowKey a ≠ Historical.rowKey b)
    ∧ (⟨"AAA", "2024-01-01", some 1⟩ : Historical.HRow) ∈
        [(⟨"AAA", "2024-01-01", some 1⟩ : Historical.HRow)] :=
  ⟨(c5_dedupe_first_wins [⟨"AAA", "2024-01-01", some 1⟩]
      [⟨"AAA", "2024-01-01", some 2⟩]).1,
   (c5_dedupe_first_wins [⟨"AAA", "2024-01-01", some 1⟩]
      [⟨"AAA", "2024-01-01", some 2⟩]).2
     ⟨"AAA", "2024-01-01", some 1⟩ (by decide)
     ⟨⟨"AAA", "2024-01-01", some 1⟩, by decide, rfl⟩⟩
